import Mathlib

/-!
Verification development for the jet-access credential-resolution and
session-establishment pipeline.

The definitions below are a shallow embedding of the Go sources:
  * `internal/vault/vault_api.go` — `ListPath`, `ReadPath` and the
    `VaultSecret` record, with a secret's `Data` map embedded as an
    association list of JSON-like values;
  * `pkg/sshclient/sshclient.go` — `ConnectAndShell`, split into the
    authentication-method builder, the client-configuration builder, the
    pseudo-terminal step and the wait/exit-status handling, with all
    external effects (key parsing, dialing, terminal queries, the blocking
    wait) supplied as explicit environment values.
-/

set_option autoImplicit false

namespace JetAccess

/-! ## Vault secret data model

A Vault secret's `Data` field in Go is a `map[string]interface` of
JSON-decoded values.  `JVal` embeds the value shapes the code inspects:
strings, lists, string-keyed maps, JSON null (a nil interface value) and
anything else (numbers, booleans, ...). -/

inductive JVal where
  | vStr (s : String)
  | vList (xs : List JVal)
  | vMap (m : List (String × JVal))
  | vNull
  | vOther

/-- Go map lookup on the association-list embedding of `map[string]interface`
(Go maps have unique keys, so taking the first match is faithful). -/
def jlookup : List (String × JVal) → String → Option JVal
  | [], _ => none
  | (k, v) :: rest, key => if k = key then some v else jlookup rest key

/-- Whether a value passes the Go type assertion `.(map[string]interface)`
used at vault_api.go line 78. -/
def isVMap : JVal → Bool
  | .vMap _ => true
  | _ => false

/-- Whether a value passes the Go type assertion `.([]interface)` used at
vault_api.go line 41. -/
def isVList : JVal → Bool
  | .vList _ => true
  | _ => false

/-- Whether a value is a JSON null, i.e. a nil interface value in Go; the
check `secret.Data["keys"] == nil` at vault_api.go line 36 treats it like a
missing entry. -/
def isVNull : JVal → Bool
  | .vNull => true
  | _ => false

/-- VaultSecret (vault_api.go lines 11-20): the normalized credential
record.  All fields are strings; `json` tags give the map keys. -/
structure VaultSecret where
  hostname : String
  ip : String
  port : String
  username : String
  password : String
  key : String
  keyPassphrase : String
deriving DecidableEq, Repr

/-- The reflection loop of `ReadPath` (lines 97-118): for each struct field,
look its json tag up in the secret data; a present string value is copied,
a missing or non-string value is silently skipped (field stays ""). -/
def getStringField (m : List (String × JVal)) (k : String) : String :=
  match jlookup m k with
  | some (.vStr s) => s
  | _ => ""

/-- Field extraction over the seven `VaultSecret` fields, in struct order,
mirroring the reflection-based mapping of `ReadPath`. -/
def extractFields (m : List (String × JVal)) : VaultSecret where
  hostname := getStringField m "hostname"
  ip := getStringField m "ip"
  port := getStringField m "port"
  username := getStringField m "username"
  password := getStringField m "password"
  key := getStringField m "key"
  keyPassphrase := getStringField m "key_passphrase"

/-- Shape resolution of `ReadPath` (vault_api.go lines 77-89): try the KV v2
nested shape (`Data["data"]` is a string-keyed map); otherwise fall back to
the top-level map as the KV v1 flat shape, accepted only when its
`hostname` entry passes the `.(string)` type assertion. -/
def resolveShape (data : List (String × JVal)) : Option (List (String × JVal)) :=
  match jlookup data "data" with
  | some (.vMap m) => some m
  | _ =>
    match jlookup data "hostname" with
    | some (.vStr _) => some data
    | _ => none

/-- ReadPath (vault_api.go lines 62-128).  The Vault client interaction is
embedded as its observable response: `.error e` for a failed
`Logical().Read`, `.ok none` for a nil secret or nil secret data, and
`.ok (some data)` for the decoded data map. -/
def ReadPath (resp : Except String (Option (List (String × JVal)))) (path : String) :
    Except String VaultSecret :=
  match resp with
  | .error e => .error ("failed to read path \x27" ++ path ++ "\x27: " ++ e)
  | .ok none => .error ("no secret found at path \x27" ++ path ++ "\x27")
  | .ok (some data) =>
    match resolveShape data with
    | none =>
      .error ("secret data at path \x27" ++ path ++
        "\x27 is not in expected KV v2 format (missing \x27data\x27 map) or compatible KV v1 format")
    | some secretData =>
      let parsedSecret := extractFields secretData
      if parsedSecret.password = "" ∧ parsedSecret.key = "" then
        .error ("either \x27password\x27 or \x27key\x27 must be provided in secret at path \x27" ++
          path ++ "\x27")
      else
        .ok parsedSecret

/-- The string-collection loop of `ListPath` (vault_api.go lines 46-53):
each item of the `keys` list must be a string; a non-string item aborts
with a parse error. -/
def collectKeys : List JVal → Except String (List String)
  | [] => .ok []
  | .vStr s :: rest => (collectKeys rest).map (fun ks => s :: ks)
  | _ :: _ => .error "failed to parse key: item in \x27keys\x27 is not a string"

/-- ListPath (vault_api.go lines 25-56).  `.error e` embeds a failed
`Logical().List`; `.ok none` a nil secret or nil secret data; `.ok (some
data)` the decoded data map.  A missing or null `keys` entry yields the
empty sequence. -/
def ListPath (resp : Except String (Option (List (String × JVal)))) (path : String) :
    Except String (List String) :=
  match resp with
  | .error e => .error ("failed to list path \x27" ++ path ++ "\x27: " ++ e)
  | .ok none => .ok []
  | .ok (some data) =>
    match jlookup data "keys" with
    | none => .ok []
    | some .vNull => .ok []
    | some (.vList xs) => collectKeys xs
    | some _ =>
      .error ("failed to parse keys from path \x27" ++ path ++
        "\x27: \x27keys\x27 field is not a []interface\x7b\x7d")

/-- The Go check `secretData["hostname"].(string)` at vault_api.go line 85:
the top-level map holds a string-typed `hostname` entry. -/
def hasStringHostname (m : List (String × JVal)) : Bool :=
  match jlookup m "hostname" with
  | some (.vStr _) => true
  | _ => false

/-- The Go check `secret.Data["data"].(map[string]interface)` at
vault_api.go line 78: the top-level map holds a map-typed `data` entry. -/
def dataEntryIsMap (m : List (String × JVal)) : Bool :=
  match jlookup m "data" with
  | some v => isVMap v
  | none => false

/-- Removal of every entry under a key, used to compare a secret against
the same secret with its `data` entry absent. -/
def eraseKey : List (String × JVal) → String → List (String × JVal)
  | [], _ => []
  | (k, v) :: rest, key => if k = key then eraseKey rest key else (k, v) :: eraseKey rest key

/-- An assignment of values to the seven credential fields, used to
compare the two storage shapes. -/
structure FieldVals where
  hostname : String
  ip : String
  port : String
  username : String
  password : String
  key : String
  keyPassphrase : String
deriving DecidableEq, Repr

/-- The flat (KV v1) storage shape: all seven fields top-level. -/
def flatShape (f : FieldVals) : List (String × JVal) :=
  [("hostname", .vStr f.hostname), ("ip", .vStr f.ip), ("port", .vStr f.port),
   ("username", .vStr f.username), ("password", .vStr f.password),
   ("key", .vStr f.key), ("key_passphrase", .vStr f.keyPassphrase)]

/-- The nested (KV v2) storage shape: the same fields under an inner
`data` sub-map. -/
def nestedShape (f : FieldVals) : List (String × JVal) :=
  [("data", .vMap (flatShape f))]

/-! ## SSH client

`pkg/sshclient/sshclient.go`.  Private-key bytes are embedded by their
parse behaviour under the x/crypto/ssh parsers: empty content, a key that
parses without a passphrase, a key that decrypts only under its passphrase,
or content that never parses.  Signers are identified by a tag. -/

inductive KeyMaterial where
  | empty
  | plain (signerId : Nat)
  | encrypted (passphrase : String) (signerId : Nat)
  | invalid (desc : String)
deriving DecidableEq, Repr

/-- ssh.ParsePrivateKey: succeeds only on unencrypted parseable key bytes. -/
def parsePrivateKey : KeyMaterial → Except String Nat
  | .plain sid => .ok sid
  | .empty => .error "ssh: no key found"
  | .encrypted _ _ => .error "ssh: this private key is passphrase protected"
  | .invalid d => .error d

/-- ssh.ParseRawPrivateKeyWithPassphrase: succeeds exactly on encrypted key
bytes supplied with the correct passphrase. -/
def parseRawPrivateKeyWithPassphrase (k : KeyMaterial) (pass : String) : Except String Nat :=
  match k with
  | .encrypted p sid => if pass = p then .ok sid else .error "x509: decryption password incorrect"
  | .plain _ => .error "ssh: key is not password protected"
  | .empty => .error "ssh: no key found"
  | .invalid d => .error d

/-- ssh.NewSignerFromKey on a raw key that was successfully parsed. -/
def newSignerFromKey (rawKey : Nat) : Except String Nat :=
  .ok rawKey

/-- SSHConfig (sshclient.go lines 15-22). -/
structure SSHConfig where
  address : String
  user : String
  port : String
  key : KeyMaterial
  passphrase : String
  password : String
deriving DecidableEq, Repr

/-- ssh.AuthMethod values built by `ConnectAndShell`: `ssh.PublicKeys` over
a signer, or `ssh.Password` over a secret. -/
inductive AuthMethod where
  | publicKeys (signerId : Nat)
  | password (secret : String)
deriving DecidableEq, Repr

/-- Step 1 of `ConnectAndShell` (sshclient.go lines 28-62): build the
ordered authentication-method sequence, with passphrase fallback for keys
that fail plain parsing, appending password auth last, and rejecting an
empty result. -/
def buildAuthMethods (cfg : SSHConfig) : Except String (List AuthMethod) :=
  let keyStep : Except String (List AuthMethod) :=
    if cfg.key = .empty then .ok []
    else
      match parsePrivateKey cfg.key with
      | .ok sid => .ok [.publicKeys sid]
      | .error e =>
        if cfg.passphrase ≠ "" then
          match parseRawPrivateKeyWithPassphrase cfg.key cfg.passphrase with
          | .ok rawKey =>
            match newSignerFromKey rawKey with
            | .ok sid => .ok [.publicKeys sid]
            | .error e2 => .error ("failed to create signer from parsed key: " ++ e2)
          | .error e2 => .error ("failed to parse private key with passphrase: " ++ e2)
        else
          .error ("failed to parse private key: " ++ e)
  match keyStep with
  | .error e => .error e
  | .ok ms =>
    let ms2 := if cfg.password = "" then ms else ms ++ [.password cfg.password]
    if ms2.isEmpty then
      .error "no authentication methods successfully configured (no valid key or password provided)"
    else
      .ok ms2

/-- The host-identity verification policy installed in the client
configuration. -/
inductive HostKeyCallback where
  | insecureIgnoreHostKey
  | knownHosts (file : String)
deriving DecidableEq, Repr

/-- ssh.ClientConfig as populated by `ConnectAndShell`. -/
structure ClientConfig where
  user : String
  auth : List AuthMethod
  hostKeyCallback : HostKeyCallback
deriving DecidableEq, Repr

/-- Step 2 of `ConnectAndShell` (sshclient.go lines 65-74): the client
configuration, which unconditionally installs `ssh.InsecureIgnoreHostKey`. -/
def buildClientConfig (cfg : SSHConfig) (authMethods : List AuthMethod) : ClientConfig where
  user := cfg.user
  auth := authMethods
  hostKeyCallback := .insecureIgnoreHostKey

/-- Local-terminal environment for step 5 of `ConnectAndShell`: whether
stdin is a terminal, and the outcomes of `term.MakeRaw`, `term.GetSize`
(width, height) and `session.RequestPty`. -/
structure TermEnv where
  isTerminal : Bool
  makeRawResult : Except String Unit
  getSizeResult : Except String (Nat × Nat)
  requestPtyResult : Except String Unit

/-- A pseudo-terminal request as issued by `session.RequestPty`. -/
structure PtyRequest where
  termType : String
  height : Nat
  width : Nat
  modes : List (Nat × Nat)
deriving DecidableEq, Repr

/-- ssh.ECHO opcode. -/
def sshECHO : Nat := 53

/-- ssh.TTY_OP_ISPEED opcode. -/
def sshTtyOpIspeed : Nat := 128

/-- ssh.TTY_OP_OSPEED opcode. -/
def sshTtyOpOspeed : Nat := 129

/-- The terminal modes requested at sshclient.go lines 117-121. -/
def terminalModes : List (Nat × Nat) :=
  [(sshECHO, 1), (sshTtyOpIspeed, 14400), (sshTtyOpOspeed, 14400)]

/-- Step 5 of `ConnectAndShell` (sshclient.go lines 94-130): when stdin is a
terminal, query its size (falling back to 80×24 on failure) and request a
PTY, failing the session if the request fails; when stdin is not a
terminal, request no PTY at all.  A `term.MakeRaw` failure only logs a
warning and never affects control flow. -/
def negotiatePty (env : TermEnv) : Except String (Option PtyRequest) :=
  if env.isTerminal then
    let wh : Nat × Nat :=
      match env.getSizeResult with
      | .ok wh => wh
      | .error _ => (80, 24)
    match env.requestPtyResult with
    | .ok _ =>
      .ok (some { termType := "xterm-256color", height := wh.2, width := wh.1,
                  modes := terminalModes })
    | .error e => .error ("failed to request PTY: " ++ e)
  else
    .ok none

/-- Outcome of the blocking `session.Wait` (sshclient.go line 149): clean
exit, an `ssh.ExitError` carrying the remote exit status, or any other
error. -/
inductive WaitResult where
  | ok
  | exitError (status : Nat)
  | otherError (msg : String)
deriving DecidableEq, Repr

/-- Step 8 of `ConnectAndShell` (sshclient.go lines 149-157): an
`ssh.ExitError` (non-zero remote exit status) is suppressed to a nil error;
any other wait error is wrapped and surfaced. -/
def handleWait : WaitResult → Option String
  | .ok => none
  | .exitError _ => none
  | .otherError m => some ("SSH session ended with unexpected error: " ++ m)

/-- External outcomes consumed by one `ConnectAndShell` invocation:
`ssh.Dial`, `client.NewSession`, the terminal environment,
`session.Shell` and `session.Wait`. -/
structure NetEnv where
  dialResult : Except String Unit
  newSessionResult : Except String Unit
  term : TermEnv
  shellResult : Except String Unit
  waitResult : WaitResult

/-- ConnectAndShell (sshclient.go lines 26-162), with external effects
supplied by `NetEnv`: build auth methods and the client configuration,
dial, open a session, negotiate the PTY, start the shell, and interpret
the blocking wait. -/
def ConnectAndShell (cfg : SSHConfig) (env : NetEnv) : Except String Unit :=
  match buildAuthMethods cfg with
  | .error e => .error e
  | .ok authMethods =>
    let _config := buildClientConfig cfg authMethods
    match env.dialResult with
    | .error e => .error ("failed to dial SSH server " ++ cfg.address ++ ": " ++ e)
    | .ok _ =>
      match env.newSessionResult with
      | .error e => .error ("failed to create SSH session: " ++ e)
      | .ok _ =>
        match negotiatePty env.term with
        | .error e => .error e
        | .ok _pty =>
          match env.shellResult with
          | .error e => .error ("failed to start remote shell: " ++ e)
          | .ok _ =>
            match handleWait env.waitResult with
            | some e => .error e
            | none => .ok ()

/-! ## Theorems -/

/-- C1: every invocation of `ConnectAndShell` builds a client configuration
whose host-identity verifier is `ssh.InsecureIgnoreHostKey`, for every
input; there is no opt-in and no known-hosts-backed verifier, so the
insecure mode is the silent (and only) behaviour, contradicting the
required known-hosts default. -/
theorem hostkey_callback_always_insecure (cfg : SSHConfig) (authMethods : List AuthMethod) :
    (buildClientConfig cfg authMethods).hostKeyCallback = HostKeyCallback.insecureIgnoreHostKey :=
  rfl

/-- C2: for every session that reaches the shell-running state (auth
methods built, dial, session creation, PTY step and shell start all
succeeded), a wait ending in a remote exit-status error yields a nil
error, and a wait ending in any other error yields a wrapped session
error. -/
theorem wait_outcome_after_shell_running (cfg : SSHConfig) (env : NetEnv)
    (authMethods : List AuthMethod) (pty : Option PtyRequest)
    (hauth : buildAuthMethods cfg = .ok authMethods)
    (hdial : env.dialResult = .ok ())
    (hsess : env.newSessionResult = .ok ())
    (hpty : negotiatePty env.term = .ok pty)
    (hshell : env.shellResult = .ok ()) :
    (∀ n, env.waitResult = .exitError n → ConnectAndShell cfg env = .ok ())
    ∧ (∀ m, env.waitResult = .otherError m →
        ConnectAndShell cfg env =
          .error ("SSH session ended with unexpected error: " ++ m)) := by
  constructor
  · intro n hw
    simp [ConnectAndShell, hauth, hdial, hsess, hpty, hshell, hw, handleWait]
  · intro m hw
    simp [ConnectAndShell, hauth, hdial, hsess, hpty, hshell, hw, handleWait]

/-- Witness for C2 at a concrete configuration and environment: a password
credential, all stages succeeding, stdin not a terminal, remote exit
status 1. -/
theorem wait_outcome_after_shell_running_witness :
    ConnectAndShell
      { address := "h:22", user := "u", port := "22",
        key := .empty, passphrase := "", password := "pw" }
      { dialResult := .ok (), newSessionResult := .ok (),
        term := { isTerminal := false, makeRawResult := .ok (),
                  getSizeResult := .error "not a tty", requestPtyResult := .ok () },
        shellResult := .ok (), waitResult := .exitError 1 } = .ok () :=
  (wait_outcome_after_shell_running
    { address := "h:22", user := "u", port := "22",
      key := .empty, passphrase := "", password := "pw" }
    { dialResult := .ok (), newSessionResult := .ok (),
      term := { isTerminal := false, makeRawResult := .ok (),
                getSizeResult := .error "not a tty", requestPtyResult := .ok () },
      shellResult := .ok (), waitResult := .exitError 1 }
    [AuthMethod.password "pw"] none rfl rfl rfl rfl rfl).1 1 rfl

/-- C3: for every fetched record whose shape resolution succeeded, if both
extracted `password` and `key` are empty, `ReadPath` fails with the
missing-credential error; if exactly one of them is non-empty, `ReadPath`
succeeds and the unset field is the empty string in the returned record. -/
theorem readpath_credential_invariant (data sd : List (String × JVal)) (path : String)
    (hshape : resolveShape data = some sd) :
    ((extractFields sd).password = "" ∧ (extractFields sd).key = "" →
      ReadPath (.ok (some data)) path =
        .error ("either \x27password\x27 or \x27key\x27 must be provided in secret at path \x27" ++
          path ++ "\x27"))
    ∧ ((extractFields sd).password ≠ "" ∧ (extractFields sd).key = "" →
      ReadPath (.ok (some data)) path = .ok (extractFields sd) ∧ (extractFields sd).key = "")
    ∧ ((extractFields sd).password = "" ∧ (extractFields sd).key ≠ "" →
      ReadPath (.ok (some data)) path = .ok (extractFields sd) ∧
        (extractFields sd).password = "") := by
  refine ⟨fun h => ?_, fun h => ⟨?_, h.2⟩, fun h => ⟨?_, h.1⟩⟩
  · simp [ReadPath, hshape, h.1, h.2]
  · simp [ReadPath, hshape, h.1]
  · simp [ReadPath, hshape, h.2]

/-- Witness for C3: a flat record with only a key set resolves successfully
and its password field is empty. -/
theorem readpath_credential_invariant_witness :
    ReadPath (.ok (some [("hostname", JVal.vStr "h"), ("key", JVal.vStr "K")])) "p"
      = .ok (extractFields [("hostname", JVal.vStr "h"), ("key", JVal.vStr "K")])
    ∧ (extractFields [("hostname", JVal.vStr "h"), ("key", JVal.vStr "K")]).password = "" :=
  (readpath_credential_invariant
    [("hostname", JVal.vStr "h"), ("key", JVal.vStr "K")]
    [("hostname", JVal.vStr "h"), ("key", JVal.vStr "K")] "p" rfl).2.2
    ⟨rfl, by decide⟩

/-- Helper: when the `data` entry is not map-shaped (or absent), shape
resolution is the flat fallback guarded by the string-typed hostname
check. -/
theorem resolveShape_of_no_map (data : List (String × JVal))
    (h : dataEntryIsMap data = false) :
    resolveShape data = (if hasStringHostname data then some data else none) := by
  unfold dataEntryIsMap at h
  unfold resolveShape hasStringHostname
  cases hd : jlookup data "data" with
  | none =>
    cases hh : jlookup data "hostname" with
    | none => rfl
    | some w => cases w <;> rfl
  | some v =>
    rw [hd] at h
    cases v with
    | vMap m => exact absurd h (by simp [isVMap])
    | vStr s =>
      cases hh : jlookup data "hostname" with
      | none => rfl
      | some w => cases w <;> rfl
    | vList xs =>
      cases hh : jlookup data "hostname" with
      | none => rfl
      | some w => cases w <;> rfl
    | vNull =>
      cases hh : jlookup data "hostname" with
      | none => rfl
      | some w => cases w <;> rfl
    | vOther =>
      cases hh : jlookup data "hostname" with
      | none => rfl
      | some w => cases w <;> rfl

/-- C4 counterexample: a flat-shaped secret whose `hostname` entry is the
EMPTY string (so not a non-empty hostname field) is nevertheless accepted
by the fallback, and `ReadPath` succeeds rather than failing with the
unsupported-shape error. -/
theorem readpath_accepts_empty_hostname_fallback :
    ReadPath (.ok (some [("hostname", JVal.vStr ""), ("password", JVal.vStr "pw")])) "p"
      = .ok { hostname := "", ip := "", port := "", username := "",
              password := "pw", key := "", keyPassphrase := "" } := by
  rfl

/-- C4 amended: for every fetched record whose `data` entry is absent or
not map-shaped, `ReadPath` falls back to the top-level map as the flat
shape, accepting the fallback exactly when the top-level map contains a
string-typed `hostname` entry (possibly empty); otherwise it fails with
the unsupported-shape error. -/
theorem flat_fallback_requires_string_hostname (data : List (String × JVal)) (path : String)
    (hnomap : dataEntryIsMap data = false) :
    (hasStringHostname data = true →
      ReadPath (.ok (some data)) path =
        (if (extractFields data).password = "" ∧ (extractFields data).key = "" then
          .error ("either \x27password\x27 or \x27key\x27 must be provided in secret at path \x27" ++
            path ++ "\x27")
        else .ok (extractFields data)))
    ∧ (hasStringHostname data = false →
      ReadPath (.ok (some data)) path =
        .error ("secret data at path \x27" ++ path ++
          "\x27 is not in expected KV v2 format (missing \x27data\x27 map) or compatible KV v1 format")) := by
  have hr := resolveShape_of_no_map data hnomap
  constructor
  · intro hh
    rw [hh] at hr
    simp at hr
    simp [ReadPath, hr]
  · intro hh
    rw [hh] at hr
    simp at hr
    simp [ReadPath, hr]

/-- Witness for C4 amended: a flat secret with a string hostname is
accepted; one with a numeric hostname is rejected with the shape error. -/
theorem flat_fallback_requires_string_hostname_witness :
    ReadPath (.ok (some [("hostname", JVal.vStr "h"), ("password", JVal.vStr "pw")])) "q"
      = (if (extractFields [("hostname", JVal.vStr "h"), ("password", JVal.vStr "pw")]).password = ""
            ∧ (extractFields [("hostname", JVal.vStr "h"), ("password", JVal.vStr "pw")]).key = "" then
          .error ("either \x27password\x27 or \x27key\x27 must be provided in secret at path \x27q\x27")
        else .ok (extractFields [("hostname", JVal.vStr "h"), ("password", JVal.vStr "pw")]))
    ∧ ReadPath (.ok (some [("hostname", JVal.vOther)])) "q"
      = .error ("secret data at path \x27q\x27 is not in expected KV v2 format (missing \x27data\x27 map) or compatible KV v1 format") :=
  ⟨(flat_fallback_requires_string_hostname
      [("hostname", JVal.vStr "h"), ("password", JVal.vStr "pw")] "q" rfl).1 rfl,
   (flat_fallback_requires_string_hostname [("hostname", JVal.vOther)] "q" rfl).2 rfl⟩

/-- C5: a record stored in the nested shape and one stored in the flat
shape with identical field values resolve identically through `ReadPath`
(in particular, to identical `VaultSecret` values whenever resolution
succeeds). -/
theorem nested_flat_roundtrip (f : FieldVals) (path : String) :
    ReadPath (.ok (some (nestedShape f))) path = ReadPath (.ok (some (flatShape f))) path := by
  rfl

/-- C6 counterexample: when local stdin is not an interactive terminal, the
session step requests no pseudo-terminal at all (it returns no PTY request,
rather than one with the 80×24 default). -/
theorem no_pty_when_stdin_not_terminal :
    negotiatePty { isTerminal := false, makeRawResult := .ok (),
                   getSizeResult := .error "inappropriate ioctl for device",
                   requestPtyResult := .ok () } = .ok none :=
  rfl

/-- C6 amended: when local stdin IS an interactive terminal but querying
its size fails, the pseudo-terminal is requested with the default 80
columns by 24 rows; when local stdin is not a terminal, no pseudo-terminal
is requested at all. -/
theorem pty_default_size_when_size_query_fails (env envNoTty : TermEnv) (e : String)
    (hterm : env.isTerminal = true) (hsize : env.getSizeResult = .error e)
    (hpty : env.requestPtyResult = .ok ())
    (hterm2 : envNoTty.isTerminal = false) :
    negotiatePty env =
      .ok (some { termType := "xterm-256color", height := 24, width := 80,
                  modes := terminalModes })
    ∧ negotiatePty envNoTty = .ok none := by
  constructor
  · simp [negotiatePty, hterm, hsize, hpty]
  · simp [negotiatePty, hterm2]

/-- Witness for C6 amended at concrete terminal environments. -/
theorem pty_default_size_when_size_query_fails_witness :
    negotiatePty { isTerminal := true, makeRawResult := .ok (),
                   getSizeResult := .error "ioctl failed", requestPtyResult := .ok () }
      = .ok (some { termType := "xterm-256color", height := 24, width := 80,
                    modes := terminalModes })
    ∧ negotiatePty { isTerminal := false, makeRawResult := .ok (),
                     getSizeResult := .ok (120, 40), requestPtyResult := .ok () }
      = .ok none :=
  pty_default_size_when_size_query_fails
    { isTerminal := true, makeRawResult := .ok (),
      getSizeResult := .error "ioctl failed", requestPtyResult := .ok () }
    { isTerminal := false, makeRawResult := .ok (),
      getSizeResult := .ok (120, 40), requestPtyResult := .ok () }
    "ioctl failed" rfl rfl rfl rfl

/-- C7: for encrypted (passphrase-protected) private-key bytes, building
auth methods with no passphrase fails naming the key-parse failure; with a
wrong passphrase it fails naming the passphrase-parse failure; with the
correct passphrase it succeeds and yields exactly one PublicKey strategy
from the key. -/
theorem encrypted_key_passphrase_fallback (p wrong pw : String) (sid : Nat)
    (addr user port : String)
    (hw : wrong ≠ "") (hwp : wrong ≠ p) (hp : p ≠ "") :
    buildAuthMethods ⟨addr, user, port, .encrypted p sid, "", pw⟩
      = .error "failed to parse private key: ssh: this private key is passphrase protected"
    ∧ buildAuthMethods ⟨addr, user, port, .encrypted p sid, wrong, pw⟩
      = .error "failed to parse private key with passphrase: x509: decryption password incorrect"
    ∧ buildAuthMethods ⟨addr, user, port, .encrypted p sid, p, ""⟩
      = .ok [AuthMethod.publicKeys sid] := by
  refine ⟨rfl, ?_, ?_⟩
  · simp [buildAuthMethods, parsePrivateKey, parseRawPrivateKeyWithPassphrase, hw, hwp]
  · simp [buildAuthMethods, parsePrivateKey, parseRawPrivateKeyWithPassphrase,
      newSignerFromKey, hp]

/-- Witness for C7 at a concrete encrypted key. -/
theorem encrypted_key_passphrase_fallback_witness :
    buildAuthMethods ⟨"h:22", "u", "22", .encrypted "s3cret" 7, "", ""⟩
      = .error "failed to parse private key: ssh: this private key is passphrase protected"
    ∧ buildAuthMethods ⟨"h:22", "u", "22", .encrypted "s3cret" 7, "bad", ""⟩
      = .error "failed to parse private key with passphrase: x509: decryption password incorrect"
    ∧ buildAuthMethods ⟨"h:22", "u", "22", .encrypted "s3cret" 7, "s3cret", ""⟩
      = .ok [AuthMethod.publicKeys 7] :=
  encrypted_key_passphrase_fallback "s3cret" "bad" "" 7 "h:22" "u" "22"
    (by decide) (by decide) (by decide)

/-- C8: with a parseable (unencrypted) key and a non-empty password, the
built sequence is exactly PublicKey followed by Password; and with no key
and no password (the only way the built sequence would be empty), the
builder fails with the no-auth-methods error. -/
theorem key_before_password_and_empty_rejected (cfg cfg2 : SSHConfig) (sid : Nat)
    (hkey : cfg.key = .plain sid) (hpw : cfg.password ≠ "")
    (hkey2 : cfg2.key = .empty) (hpw2 : cfg2.password = "") :
    buildAuthMethods cfg = .ok [AuthMethod.publicKeys sid, AuthMethod.password cfg.password]
    ∧ buildAuthMethods cfg2 =
        .error "no authentication methods successfully configured (no valid key or password provided)" := by
  constructor
  · simp [buildAuthMethods, hkey, parsePrivateKey, hpw]
  · simp [buildAuthMethods, hkey2, hpw2]

/-- Witness for C8 at concrete configurations. -/
theorem key_before_password_and_empty_rejected_witness :
    buildAuthMethods ⟨"h:22", "u", "22", .plain 3, "", "pw"⟩
      = .ok [AuthMethod.publicKeys 3, AuthMethod.password "pw"]
    ∧ buildAuthMethods ⟨"h:22", "u", "22", .empty, "", ""⟩
      = .error "no authentication methods successfully configured (no valid key or password provided)" :=
  key_before_password_and_empty_rejected
    ⟨"h:22", "u", "22", .plain 3, "", "pw"⟩
    ⟨"h:22", "u", "22", .empty, "", ""⟩ 3 rfl (by decide) rfl rfl

/-- C9: `ListPath` returns the empty sequence and no error when the
response carries zero children (nil secret, missing or null `keys` entry,
or an empty `keys` list); a store-level failure surfaces as an error
naming the path; and a present but non-list-shaped `keys` value surfaces
as a parse error naming the field and the path. -/
theorem listpath_children_and_errors (path e : String)
    (dmiss dempty dbad : List (String × JVal)) (v : JVal)
    (hmiss : jlookup dmiss "keys" = none)
    (hempty : jlookup dempty "keys" = some (JVal.vList []))
    (hbad : jlookup dbad "keys" = some v)
    (hnl : isVList v = false) (hnn : isVNull v = false) :
    ListPath (.ok none) path = .ok []
    ∧ ListPath (.ok (some dmiss)) path = .ok []
    ∧ ListPath (.ok (some dempty)) path = .ok []
    ∧ ListPath (.error e) path = .error ("failed to list path \x27" ++ path ++ "\x27: " ++ e)
    ∧ ListPath (.ok (some dbad)) path =
        .error ("failed to parse keys from path \x27" ++ path ++
          "\x27: \x27keys\x27 field is not a []interface\x7b\x7d") := by
  refine ⟨rfl, ?_, ?_, rfl, ?_⟩
  · simp [ListPath, hmiss]
  · simp [ListPath, hempty, collectKeys]
  · cases v with
    | vList xs => simp [isVList] at hnl
    | vNull => simp [isVNull] at hnn
    | vStr s => simp [ListPath, hbad]
    | vMap m => simp [ListPath, hbad]
    | vOther => simp [ListPath, hbad]

/-- Witness for C9 at concrete responses. -/
theorem listpath_children_and_errors_witness :
    ListPath (.ok none) "secret/x" = .ok []
    ∧ ListPath (.ok (some [])) "secret/x" = .ok []
    ∧ ListPath (.ok (some [("keys", JVal.vList [])])) "secret/x" = .ok []
    ∧ ListPath (.error "boom") "secret/x"
        = .error ("failed to list path \x27" ++ "secret/x" ++ "\x27: " ++ "boom")
    ∧ ListPath (.ok (some [("keys", JVal.vStr "z")])) "secret/x"
        = .error ("failed to parse keys from path \x27" ++ "secret/x" ++
            "\x27: \x27keys\x27 field is not a []interface\x7b\x7d") :=
  listpath_children_and_errors "secret/x" "boom"
    [] [("keys", JVal.vList [])] [("keys", JVal.vStr "z")] (JVal.vStr "z")
    rfl rfl rfl rfl rfl

/-- Helper: erasing a key removes it from lookup. -/
theorem jlookup_eraseKey_self (m : List (String × JVal)) (key : String) :
    jlookup (eraseKey m key) key = none := by
  induction m with
  | nil => rfl
  | cons kv rest ih =>
    obtain ⟨k, v⟩ := kv
    by_cases h : k = key
    · simp [eraseKey, h, ih]
    · simp [eraseKey, jlookup, h, ih]

/-- Helper: erasing one key leaves lookups of other keys unchanged. -/
theorem jlookup_eraseKey_of_ne (m : List (String × JVal)) (key k : String) (hne : k ≠ key) :
    jlookup (eraseKey m key) k = jlookup m k := by
  induction m with
  | nil => rfl
  | cons kv rest ih =>
    obtain ⟨k0, v⟩ := kv
    by_cases h : k0 = key
    · subst h
      simp [eraseKey, jlookup, ih, Ne.symm hne]
    · simp [eraseKey, jlookup, h, ih]

/-- Helper: field extraction ignores a key distinct from the field name. -/
theorem getStringField_eraseKey (m : List (String × JVal)) (k key : String) (h : k ≠ key) :
    getStringField (eraseKey m key) k = getStringField m k := by
  simp [getStringField, jlookup_eraseKey_of_ne m key k h]

/-- Helper: field extraction never reads the `data` entry, so erasing it
leaves the extracted record unchanged. -/
theorem extractFields_eraseKey_data (m : List (String × JVal)) :
    extractFields (eraseKey m "data") = extractFields m := by
  unfold extractFields
  rw [getStringField_eraseKey m "hostname" "data" (by decide),
      getStringField_eraseKey m "ip" "data" (by decide),
      getStringField_eraseKey m "port" "data" (by decide),
      getStringField_eraseKey m "username" "data" (by decide),
      getStringField_eraseKey m "password" "data" (by decide),
      getStringField_eraseKey m "key" "data" (by decide),
      getStringField_eraseKey m "key_passphrase" "data" (by decide)]

/-- Helper: the hostname fallback check never reads the `data` entry. -/
theorem hasStringHostname_eraseKey (m : List (String × JVal)) :
    hasStringHostname (eraseKey m "data") = hasStringHostname m := by
  unfold hasStringHostname
  rw [jlookup_eraseKey_of_ne m "data" "hostname" (by decide)]

/-- C10: for every fetched record whose `data` entry is present but not a
string-keyed map, `ReadPath` behaves exactly as if the entry were absent:
same flat fallback, same hostname acceptance check, same result. -/
theorem data_entry_nonmap_treated_as_absent (data : List (String × JVal)) (path : String)
    (v : JVal) (hv : jlookup data "data" = some v) (hnm : isVMap v = false) :
    ReadPath (.ok (some data)) path = ReadPath (.ok (some (eraseKey data "data"))) path := by
  have h1 : dataEntryIsMap data = false := by
    unfold dataEntryIsMap
    rw [hv]
    exact hnm
  have h2 : dataEntryIsMap (eraseKey data "data") = false := by
    unfold dataEntryIsMap
    rw [jlookup_eraseKey_self data "data"]
  have r1 := resolveShape_of_no_map data h1
  have r2 := resolveShape_of_no_map (eraseKey data "data") h2
  rw [hasStringHostname_eraseKey] at r2
  cases hh : hasStringHostname data with
  | true =>
    rw [hh] at r1 r2
    simp at r1 r2
    simp [ReadPath, r1, r2, extractFields_eraseKey_data]
  | false =>
    rw [hh] at r1 r2
    simp at r1 r2
    simp [ReadPath, r1, r2]

/-- Witness for C10 at a secret whose `data` entry holds a string. -/
theorem data_entry_nonmap_treated_as_absent_witness :
    ReadPath (.ok (some [("data", JVal.vStr "oops"), ("hostname", JVal.vStr "h"),
                         ("key", JVal.vStr "K")])) "p"
      = ReadPath (.ok (some (eraseKey [("data", JVal.vStr "oops"), ("hostname", JVal.vStr "h"),
                         ("key", JVal.vStr "K")] "data"))) "p" :=
  data_entry_nonmap_treated_as_absent
    [("data", JVal.vStr "oops"), ("hostname", JVal.vStr "h"), ("key", JVal.vStr "K")]
    "p" (JVal.vStr "oops") rfl rfl

end JetAccess
